import Mathlib

/-!
Verification of the tsukimi media-server API client (`src/client/emby_client.rs`)
against its natural-language specification.

The Rust client is shallowly embedded: pure string/URL manipulation becomes
Lean functions, the mutable session state (`EmbyClient`'s mutexed fields)
becomes an explicit `ClientState` record threaded through the setters, the
HTTP layer is modelled by passing in the response (or transport outcome) the
network would have produced, and the filesystem used by the image cache is an
explicit association list threaded through `get_image` / `save_image`.

Functions of third-party crates that the client calls (`url`, `form_urlencoded`,
Rust's `str::parse::<u16>`, `http::HeaderValue::from_str`) are modelled on the
fragment of inputs the client feeds them, following the crates' documented and
implemented behaviour; each such model carries a comment naming the modelled
function.
-/

namespace Tsukimi

/-- Model of `url::Url` restricted to the special `http`/`https` scheme URLs
the client ever builds.  `port = none` means "use the scheme's default port";
the `url` crate normalises a stored port that equals the scheme default to
`None`, both at parse time and in `set_port`.  `path` is the serialised path
(always beginning with `/`), `query` the raw query string without the `?`. -/
structure Url where
  scheme : String
  host : String
  port : Option Nat
  path : String
  query : Option String
deriving Repr, DecidableEq

/-- Default port of a scheme, as in the `url` crate (`h` 80, `https` 443). -/
def defaultPort (scheme : String) : Option Nat :=
  if scheme = "http" then some 80
  else if scheme = "https" then some 443
  else none

/-- Effective port of a URL: the stored port, or the scheme default. -/
def Url.portOrDefault (u : Url) : Option Nat :=
  match u.port with
  | some p => some p
  | none => defaultPort u.scheme

/-- Serialisation of our URL fragment, as `url::Url::as_str` prints it:
the port is shown only when it differs from the scheme default (it is then
stored), the query only when present. -/
def urlToString (u : Url) : String :=
  u.scheme ++ "://" ++ u.host ++
    (match u.port with
     | some p => ":" ++ toString p
     | none => "") ++
  u.path ++
    (match u.query with
     | some q => "?" ++ q
     | none => "")

/-- Characters we accept in a host.  The `url` crate forbids
`space # / : ? @ [ \ ]` in hosts and lowercases ASCII; we restrict the model
to hosts that are already lowercase ASCII letters, digits, `.` or `-`. -/
def isValidHostChar (c : Char) : Bool :=
  c.isLower ∨ c.isDigit ∨ c = '.' ∨ c = '-'

def isValidHost (h : List Char) : Bool :=
  ¬ h.isEmpty ∧ h.all isValidHostChar

/-- Strip a literal prefix from a character list. -/
def dropPre : List Char → List Char → Option (List Char)
  | [], l => some l
  | _ :: _, [] => none
  | p :: ps, c :: cs => if c = p then dropPre ps cs else none

/-- Decimal digit string to `Nat` (the input is checked to be all digits
before this is used). -/
def digitsToNat (l : List Char) : Nat :=
  l.foldl (fun acc c => acc * 10 + (c.toNat - 48)) 0

/-- Split a character list at the first occurrence of `sep`; the separator is
consumed.  Returns `(before, some after)` or `(l, none)` if absent. -/
def splitAtChar (sep : Char) : List Char → List Char × Option (List Char)
  | [] => ([], none)
  | c :: cs =>
    if c = sep then ([], some cs)
    else
      let (pre, post) := splitAtChar sep cs
      (c :: pre, post)

/-- Model of host[:port] parsing inside `url::Url::parse`: the port must be
all digits and fit in `u16` (an empty port after `:` is allowed and means no
port); a port equal to the scheme default is normalised away. -/
def parseHostPort (scheme : String) (s : List Char) : Option (String × Option Nat) :=
  let (h, rest) := splitAtChar ':' s
  if isValidHost h then
    match rest with
    | none => some (String.mk h, none)
    | some [] => some (String.mk h, none)
    | some p =>
      if p.all Char.isDigit then
        let n := digitsToNat p
        if n ≤ 65535 then
          some (String.mk h, if defaultPort scheme = some n then none else some n)
        else none
      else none
  else none

/-- Model of `url::Url::parse` on the `http(s)://host[:port][/path][?query]`
strings the client passes it.  Other schemes and exotic syntax (userinfo,
IPv6 brackets, `?` directly after the host) are outside the modelled
fragment and yield `none`. -/
def parseUrl (s : String) : Option Url :=
  let (scheme, rest) :=
    match dropPre "http://".toList s.toList with
    | some r => ("http", some r)
    | none =>
      match dropPre "https://".toList s.toList with
      | some r => ("https", some r)
      | none => ("", none)
  match rest with
  | none => none
  | some r =>
    let (hostport, pathRest) := splitAtChar '/' r
    let (pathChars, queryChars) :=
      match pathRest with
      | none => ([], none)
      | some pr => splitAtChar '?' pr
    match parseHostPort scheme hostport with
    | none => none
    | some (h, prt) =>
      some { scheme := scheme, host := h, port := prt,
             path := "/" ++ String.mk pathChars,
             query := queryChars.map String.mk }

/-- Model of Rust `str::parse::<u16>`: optional leading `+`, then one or more
decimal digits, value at most 65535; anything else is a parse error. -/
def parseU16 (s : String) : Option Nat :=
  let cs := match s.toList with
    | '+' :: rest => rest
    | l => l
  if ¬ cs.isEmpty ∧ cs.all Char.isDigit then
    let n := digitsToNat cs
    if n ≤ 65535 then some n else none
  else none

/-- Model of `url::Url::set_port` on our fragment: every modelled URL is a
special-scheme URL with a nonempty host (the only failure cases of the crate
are cannot-be-a-base, `file`, or hostless URLs), so it always succeeds; a
port equal to the scheme default is stored as `none`. -/
def Url.setPort (u : Url) (p : Option Nat) : Except Unit Url :=
  if u.host = "" then .error ()
  else .ok { u with port :=
    match p with
    | none => none
    | some n => if defaultPort u.scheme = some n then none else some n }

/-- Directory part of a path: everything up to and including the last `/`. -/
def pathDirname (p : String) : String :=
  String.mk (p.toList.reverse.dropWhile (fun c => c ≠ '/')).reverse

/-- Model of `url::Url::join` with a relative reference (no leading `/`, no
`..`), as the client uses it: the reference replaces everything after the
last `/` of the base path, and its `?query` part (if any) replaces the base
query, which is otherwise dropped. -/
def Url.join (u : Url) (rel : String) : Url :=
  let (relPath, relQuery) := splitAtChar '?' rel.toList
  { u with path := pathDirname u.path ++ String.mk relPath,
           query := relQuery.map String.mk }

/-- The per-request identity strings baked into the client at construction:
`CLIENT_ID`, the hostname (`DEVICE_NAME`), the persisted uuid (`DEVICE_ID`)
and `VERSION`.  `DEVICE_NAME`/`DEVICE_ID`/`VERSION` are runtime values, so
they are parameters of the model. -/
structure ClientCtx where
  clientId : String
  deviceName : String
  deviceId : String
  version : String
deriving Repr, DecidableEq

/-- The `CLIENT_ID` constant. -/
def CLIENT_ID : String := "Tsukimi"

/-- The mutexed fields of `EmbyClient` that the verified operations touch.
Headers are an association list; `http::HeaderMap` is unordered, so only
lookup matters. -/
structure ClientState where
  url : Option Url
  headers : List (String × String)
  userId : String
  userAccessToken : String
deriving Repr, DecidableEq

/-- `EmbyClient::header_change_url`: parse the server URL, force the port to
`port.parse::<u16>().unwrap_or_default()` (a non-numeric port becomes 0),
join the fixed API root `"emby/"` and store the result. -/
def header_change_url (st : ClientState) (url port : String) : Except String ClientState :=
  match parseUrl url with
  | none => .error "url parse error"
  | some u =>
    match u.setPort (some ((parseU16 port).getD 0)) with
    | .error _ => .error "Failed to set port"
    | .ok u' => .ok { st with url := some (u'.join "emby/") }

/-- Uppercase hexadecimal digit, for percent-encoding. -/
def hexDigit (n : Nat) : Char :=
  if n < 10 then Char.ofNat (48 + n) else Char.ofNat (55 + n)

/-- `%XX` encoding of one byte (uppercase hex), as `form_urlencoded` emits. -/
def percentEncodeByte (b : Nat) : List Char :=
  ['%', hexDigit (b / 16), hexDigit (b % 16)]

/-- UTF-8 bytes of a character (as `Nat`s), for percent-encoding. -/
def utf8Bytes (c : Char) : List Nat :=
  let n := c.toNat
  if n < 128 then [n]
  else if n < 2048 then [192 + n / 64, 128 + n % 64]
  else if n < 65536 then [224 + n / 4096, 128 + n / 64 % 64, 128 + n % 64]
  else [240 + n / 262144, 128 + n / 4096 % 64, 128 + n / 64 % 64, 128 + n % 64]

/-- Bytes left unchanged by `form_urlencoded::byte_serialize`:
ASCII alphanumerics and `* - . _`. -/
def isFormUrlSafe (c : Char) : Bool :=
  c.isAlphanum ∨ c = '*' ∨ c = '-' ∨ c = '.' ∨ c = '_'

/-- Model of `form_urlencoded::byte_serialize` on one character: space becomes
`+`, safe bytes pass through, everything else is percent-encoded per UTF-8
byte. -/
def formUrlencodeChar (c : Char) : List Char :=
  if c = ' ' then ['+']
  else if isFormUrlSafe c then [c]
  else (utf8Bytes c).flatMap percentEncodeByte

/-- Form-urlencode a whole string. -/
def formUrlencode (s : String) : String :=
  String.mk (s.toList.flatMap formUrlencodeChar)

/-- The serialised `name=value` text of one appended query pair. -/
def encodePair (p : String × String) : String :=
  formUrlencode p.fst ++ "=" ++ formUrlencode p.snd

/-- Model of `form_urlencoded::Serializer::append_pair` acting on a URL's
query (`Url::query_pairs_mut().append_pair(key, value)`): the encoded pair is
appended, preceded by `&` only when the existing query is nonempty.  Note the
pair is appended unconditionally — an empty key is NOT skipped. -/
def appendPairQuery (q : Option String) (k v : String) : String :=
  match q with
  | none => encodePair (k, v)
  | some t => if t = "" then encodePair (k, v) else t ++ "&" ++ encodePair (k, v)

def Url.appendPair (u : Url) (k v : String) : Url :=
  { u with query := some (appendPairQuery u.query k v) }

/-- `EmbyClient::add_params_to_url`: append every `(key, value)` pair of the
slice, in order, via `append_pair`. -/
def add_params_to_url (u : Url) (params : List (String × String)) : Url :=
  params.foldl (fun u p => u.appendPair p.fst p.snd) u

/-- The query pieces already present on a URL, as a (zero- or one-element)
list of raw query strings, used to state what appending produces. -/
def queryParts (u : Url) : List String :=
  match u.query with
  | none => []
  | some q => if q = "" then [] else [q]

/-- `generate_emby_authorization`: the `x-emby-authorization` header value. -/
def generate_emby_authorization (user_id client device device_id version : String) : String :=
  "Emby UserId=" ++ user_id ++ ",Client=" ++ client ++ ",Device=" ++ device ++
    ",DeviceId=" ++ device_id ++ ",Version=" ++ version

/-- Model of `http::HeaderValue::from_str` validity: every byte must satisfy
`b >= 32 && b != 127 || b == 9`.  All UTF-8 continuation/lead bytes are
`≥ 128`, so on characters this is: tab, or codepoint `≥ 32` other than
DEL for ASCII, and always valid for non-ASCII. -/
def validHeaderValue (s : String) : Bool :=
  s.toList.all fun c => c.toNat = 9 ∨ (32 ≤ c.toNat ∧ (c.toNat < 128 → c.toNat ≠ 127))

/-- `http::HeaderMap::insert`: replace any previous value of the name (the
map is unordered; we keep an association list with unique keys). -/
def headersInsert (hs : List (String × String)) (k v : String) : List (String × String) :=
  hs.filter (fun p => p.fst ≠ k) ++ [(k, v)]

/-- Header lookup. -/
def headersGet (hs : List (String × String)) (k : String) : Option String :=
  (hs.find? (fun p => p.fst = k)).map (·.snd)

/-- `EmbyClient::header_change_user_id`: rebuild the `x-emby-authorization`
header from the given user id and the static client identity; fails only when
the formatted value is not a valid header value. -/
def header_change_user_id (ctx : ClientCtx) (st : ClientState) (user_id : String) :
    Except String ClientState :=
  let value := generate_emby_authorization user_id ctx.clientId ctx.deviceName
    ctx.deviceId ctx.version
  if validHeaderValue value then
    .ok { st with headers := headersInsert st.headers "x-emby-authorization" value }
  else .error "invalid header value"

/-- `EmbyClient::set_user_id`: store the new user id, then regenerate the
authorization header before returning. -/
def set_user_id (ctx : ClientCtx) (st : ClientState) (user_id : String) :
    Except String ClientState :=
  let st := { st with userId := user_id }
  header_change_user_id ctx st user_id

/-- An HTTP response as the pipeline observes it: status code, `ETag` header
(when present) and raw body text.  Binary bodies are byte lists. -/
structure HttpResponse where
  status : Nat
  etag : Option String
  body : String
deriving Repr, DecidableEq

/-- `reqwest::StatusCode::is_success`: `200..=299`. -/
def isSuccess (s : Nat) : Bool := 200 ≤ s ∧ s ≤ 299

/-- `reqwest::StatusCode::is_redirection`: `300..=399`. -/
def isRedirection (s : Nat) : Bool := 300 ≤ s ∧ s ≤ 399

/-- `Response::error_for_status`: an error exactly for client errors
(`400..=499`) and server errors (`500..=599`); informational and redirection
statuses pass through untouched. -/
def error_for_status (r : HttpResponse) : Except Nat HttpResponse :=
  if 400 ≤ r.status ∧ r.status ≤ 599 then .error r.status else .ok r

/-- Error taxonomy of the pipeline as surfaced by `request` (the `anyhow`
errors, classified by which `return Err` produced them). -/
inductive ApiError where
  | transport (msg : String)
  | http (status : Nat)
  | decode (path : String) (body : String)
deriving Repr, DecidableEq

/-- Observable events of one call against the limiter-guarded transport. -/
inductive NetEvent where
  | acquire
  | send
  | release
deriving Repr, DecidableEq

/-- The transport outcome the network would produce for one send. -/
def Transport := Except String HttpResponse

/-- `EmbyClient::send_request`: acquire a semaphore permit, send, and release
the permit on both exits — explicitly via `drop(permit)` on success, and by
the permit guard going out of scope on the early `return Err`.  The event
trace is returned alongside the result. -/
def send_request (outcome : Transport) : List NetEvent × Except ApiError HttpResponse :=
  match outcome with
  | .ok r => ([.acquire, .send, .release], .ok r)
  | .error e => ([.acquire, .send, .release], .error (.transport e))

/-- `EmbyClient::request_picture` (the spec's `fetch_binary`): builds the GET
with an `If-None-Match` header and calls `request.send().await` DIRECTLY — it
does not go through `send_request`, so no permit is ever acquired. -/
def request_picture (outcome : Transport) : List NetEvent × Except ApiError HttpResponse :=
  match outcome with
  | .ok r => ([.send], .ok r)
  | .error e => ([.send], .error (.transport e))

/-- `EmbyClient::request::<T>` after the dispatch: `error_for_status`, then
decode the body text, reporting the request path and the raw body on a parse
failure.  The decoder for `T` is a parameter. -/
def request_decode {T : Type} (parse : String → Option T) (path : String)
    (outcome : Transport) : Except ApiError T :=
  match (send_request outcome).snd with
  | .error e => .error e
  | .ok res =>
    match error_for_status res with
    | .error status => .error (.http status)
    | .ok res =>
      match parse res.body with
      | some v => .ok v
      | none => .error (.decode path res.body)

/-- Event trace of `EmbyClient::request` (typed GET). -/
def request_events (outcome : Transport) : List NetEvent :=
  (send_request outcome).fst

/-- Event trace of `EmbyClient::post` (JSON POST; same dispatch step). -/
def post_events (outcome : Transport) : List NetEvent :=
  (send_request outcome).fst

/-- Event trace of `EmbyClient::post_raw` (raw-body POST; same dispatch). -/
def post_raw_events (outcome : Transport) : List NetEvent :=
  (send_request outcome).fst

/-- Event trace of `EmbyClient::request_picture`. -/
def request_picture_events (outcome : Transport) : List NetEvent :=
  (request_picture outcome).fst

/-- Image bodies as byte lists. -/
structure BinResponse where
  status : Nat
  etag : Option String
  bytes : List Nat
deriving Repr, DecidableEq

/-- The slice of the filesystem the image cache touches: cached files (path
to byte content) and their sidecar entity tags (xattr / alternate stream). -/
structure FileSystem where
  files : List (String × List Nat)
  xattrs : List (String × String)
deriving Repr, DecidableEq

/-- Association-list update with unique keys. -/
def assocInsert {α : Type} (l : List (String × α)) (k : String) (v : α) :
    List (String × α) :=
  l.filter (fun p => p.fst ≠ k) ++ [(k, v)]

def assocGet {α : Type} (l : List (String × α)) (k : String) : Option α :=
  (l.find? (fun p => p.fst = k)).map (·.snd)

/-- The cache path `emby_cache_path()` joined with the formatted file name
`"{id}-{image_type}-{tag.unwrap_or(0)}"`, serialised the way
`to_string_lossy` prints it. -/
def cachePathFor (cacheDir id imageType : String) (tag : Option Nat) : String :=
  cacheDir ++ "/" ++ id ++ "-" ++ imageType ++ "-" ++ toString (tag.getD 0)

/-- Outcome of `save_image`: the function `unwrap`s the `std::fs::write`
result, so a failed write is a panic, not an error return. -/
inductive SaveOutcome where
  | panicked
  | ok (path : String)
deriving Repr, DecidableEq

/-- `EmbyClient::save_image`: write the bytes to the cache path with
`std::fs::write(..).unwrap()` (panics if the write fails), then best-effort
set the sidecar etag — a sidecar failure is logged and absorbed — and return
the path.  `writeOk`/`xattrOk` inject the filesystem outcomes. -/
def save_image (cacheDir id imageType : String) (tag : Option Nat)
    (bytes : List Nat) (etag : Option String) (fs : FileSystem)
    (writeOk xattrOk : Bool) : SaveOutcome × FileSystem :=
  let path := cachePathFor cacheDir id imageType tag
  if writeOk then
    let fs := { fs with files := assocInsert fs.files path bytes }
    let fs :=
      match etag with
      | some e => if xattrOk then { fs with xattrs := assocInsert fs.xattrs path e } else fs
      | none => fs
    (.ok path, fs)
  else (.panicked, fs)

/-- Outcome of `get_image`. -/
inductive GetImageOutcome where
  | panicked
  | ok (path : String)
  | error (msg : String)
deriving Repr, DecidableEq

/-- `EmbyClient::get_image`: compute the cache path, read the stored sidecar
etag if the file exists (best effort — only influences the conditional
request, which is part of `outcome` here), then dispatch on the response:
redirection returns the local path with no write; any other non-success
status is an error; a success body strictly longer than 1000 bytes is saved
via `save_image`, anything shorter yields the empty path with no write. -/
def get_image (cacheDir id imageType : String) (tag : Option Nat)
    (outcome : Except String BinResponse) (fs : FileSystem)
    (writeOk xattrOk : Bool) : GetImageOutcome × FileSystem :=
  let path := cachePathFor cacheDir id imageType tag
  match outcome with
  | .error e => (.error e, fs)
  | .ok response =>
    if isRedirection response.status then (.ok path, fs)
    else if ¬ isSuccess response.status then
      (.error ("Failed to get image: " ++ toString response.status), fs)
    else
      let etag := response.etag
      if response.bytes.length > 1000 then
        match save_image cacheDir id imageType tag response.bytes etag fs writeOk xattrOk with
        | (.ok p, fs') => (.ok p, fs')
        | (.panicked, fs') => (.panicked, fs')
      else (.ok "", fs)

/-- Outcome of the pure URL builders: they `unwrap` the optional base URL, so
calling them before `set_server` has configured it is a panic. -/
inductive BuildOutcome where
  | panicked
  | ok (s : String)
deriving Repr, DecidableEq

/-- Model of `Url::path_segments_mut().pop()`: remove the last path segment
(the possibly empty segment after the last `/`). -/
def popPathSegment (p : String) : String :=
  match p.toList.reverse with
  | [] => p
  | '/' :: rest => if rest.isEmpty then "/" else String.mk rest.reverse
  | _ =>
    match (p.toList.reverse.dropWhile fun c => c ≠ '/') with
    | '/' :: rest => if rest.isEmpty then "/" else String.mk rest.reverse
    | _ => p

/-- `EmbyClient::get_direct_stream_url`: `unwrap`s the base URL (panics when
unset), pops the `emby/` segment, joins `Videos/{id}/stream.{container}` and
appends the five query pairs.  (`continer` keeps the source's spelling.) -/
def get_direct_stream_url (ctx : ClientCtx) (st : ClientState)
    (continer media_source_id etag : String) : BuildOutcome :=
  match st.url with
  | none => .panicked
  | some url =>
    let url := { url with path := popPathSegment url.path }
    let path := "Videos/" ++ media_source_id ++ "/stream." ++ continer
    let url := url.join path
    let url := ((((url.appendPair "Static" "true").appendPair
      "mediaSourceId" media_source_id).appendPair
      "deviceId" ctx.deviceId).appendPair
      "api_key" st.userAccessToken).appendPair "Tag" etag
    .ok (urlToString url)

/-- `EmbyClient::get_streaming_url`: `unwrap`s the base URL (panics when
unset) and joins the path with leading slashes trimmed. -/
def get_streaming_url (st : ClientState) (path : String) : BuildOutcome :=
  match st.url with
  | none => .panicked
  | some url =>
    .ok (urlToString (url.join (String.mk (path.toList.dropWhile fun c => c = '/'))))

/-- `EmbyClient::get_song_streaming_uri`: `unwrap`s the base URL (panics when
unset) and joins the fixed `Audio/{id}/universal?...` reference carrying the
user id, device id and access token. -/
def get_song_streaming_uri (ctx : ClientCtx) (st : ClientState) (id : String) :
    BuildOutcome :=
  match st.url with
  | none => .panicked
  | some url =>
    .ok (urlToString (url.join ("Audio/" ++ id ++ "/universal?UserId=" ++ st.userId ++
      "&DeviceId=" ++ ctx.deviceId ++
      "&MaxStreamingBitrate=4000000&Container=opus,mp3|mp3,mp2,mp3|mp2,m4a|aac,mp4|aac,flac,webma,webm,wav|PCM_S16LE,wav|PCM_S24LE,ogg&TranscodingContainer=aac&TranscodingProtocol=hls&AudioCodec=aac&api_key=" ++
      st.userAccessToken ++
      "&PlaySessionId=1715006733496&StartTimeTicks=0&EnableRedirection=true&EnableRemoteMedia=false")))

/-- `EmbyClient::get_image_path`: `unwrap`s the base URL (panics when unset),
joins `Items/{id}/Images/{type}/`, then joins the index when given. -/
def get_image_path (st : ClientState) (id image_type : String)
    (image_index : Option Nat) : BuildOutcome :=
  match st.url with
  | none => .panicked
  | some url =>
    let path := "Items/" ++ id ++ "/Images/" ++ image_type ++ "/"
    let url := url.join path
    match image_index with
    | some index => .ok (urlToString (url.join (toString index)))
    | none => .ok (urlToString url)

/-- Join raw query fragments with `&`, to state what appending produces. -/
def joinAmp : List String → String
  | [] => ""
  | [q] => q
  | q :: r :: rest => q ++ "&" ++ joinAmp (r :: rest)

/-! Helper lemmas. -/

theorem defaultPort_ne_some_zero (s : String) : defaultPort s ≠ some 0 := by
  unfold defaultPort
  split
  · simp
  · split <;> simp

theorem joinAmp_glue (x y : String) (rest : List String) :
    joinAmp ((x ++ "&" ++ y) :: rest) = x ++ "&" ++ joinAmp (y :: rest) := by
  cases rest with
  | nil => rfl
  | cons b l => simp [joinAmp, String.append_assoc]

theorem encodePair_ne_empty (p : String × String) : encodePair p ≠ "" := by
  intro h
  have hl := congrArg String.length h
  have h1 : ("=" : String).length = 1 := rfl
  simp [encodePair, String.length_append, h1] at hl

theorem appendPairQuery_ne_empty (q : Option String) (k v : String) :
    appendPairQuery q k v ≠ "" := by
  unfold appendPairQuery
  match q with
  | none => exact encodePair_ne_empty (k, v)
  | some t =>
    by_cases ht : t = ""
    · simp [ht]
      exact encodePair_ne_empty (k, v)
    · simp [ht]
      intro h
      have hl := congrArg String.length h
      have h1 : ("&" : String).length = 1 := rfl
      simp [String.length_append, h1] at hl

theorem queryParts_appendPair (u : Url) (k v : String) :
    queryParts (u.appendPair k v) = [appendPairQuery u.query k v] := by
  unfold queryParts Url.appendPair
  simp [appendPairQuery_ne_empty]

theorem headersGet_insert (hs : List (String × String)) (k v : String) :
    headersGet (headersInsert hs k v) k = some v := by
  unfold headersGet headersInsert
  induction hs with
  | nil => simp [List.find?]
  | cons p t ih =>
    by_cases h : p.fst = k
    · simp [List.filter_cons, h]
    · simp [List.filter_cons, h, List.find?_cons]

/-! Claim theorems. -/

/-- Base state for the C1 counterexample: a client that already has a
configured base URL. -/
def c1State : ClientState :=
  { url := some { scheme := "https", host := "old.example", port := none,
                  path := "/emby/", query := none },
    headers := [], userId := "", userAccessToken := "" }

/-- The base URL that `header_change_url` actually stores in the C1
counterexample run: port silently forced to 0. -/
def c1NewUrl : Url :=
  { scheme := "http", host := "example.com", port := some 0,
    path := "/emby/", query := none }

/-- C1: the claim is FALSE on the code.  For the non-numeric port string
`"abc"`, `header_change_url` does not return a `Config` error: it parses the
port with `unwrap_or_default()` (yielding 0), succeeds, and REPLACES the
previously configured base URL with `http://example.com:0/emby/`. -/
theorem c1_counterexample :
    header_change_url c1State "http://example.com" "abc" =
      .ok { c1State with url := some c1NewUrl } ∧
    some c1NewUrl ≠ c1State.url := by
  constructor
  · rfl
  · decide

/-- C1 (amended): for every parseable server URL and every NON-numeric port
string, `header_change_url` succeeds — it silently coerces the port to 0
(`parse::<u16>().unwrap_or_default()`) and stores the parsed URL with port 0
and the `emby/` API root, replacing any previously configured base URL;
there is no fail-closed behaviour for a non-numeric port. -/
theorem c1_amended (st : ClientState) (url port : String) (u : Url)
    (hu : parseUrl url = some u) (hhost : u.host ≠ "") (hp : parseU16 port = none) :
    header_change_url st url port =
      .ok { st with url := some (Url.join { u with port := some 0 } "emby/") } := by
  unfold header_change_url
  rw [hu, hp]
  unfold Url.setPort
  simp [hhost, defaultPort_ne_some_zero]

/-- Parse result of the C1 witness URL. -/
def c1ParsedUrl : Url :=
  { scheme := "http", host := "example.com", port := none, path := "/", query := none }

/-- Witness for `c1_amended` at the concrete input
(`"http://example.com"`, port `"abc"`). -/
theorem c1_amended_witness :
    parseUrl "http://example.com" = some c1ParsedUrl ∧
    parseU16 "abc" = none ∧
    header_change_url c1State "http://example.com" "abc" =
      .ok { c1State with url := some (Url.join { c1ParsedUrl with port := some 0 } "emby/") } :=
  ⟨by decide, by decide,
   c1_amended c1State "http://example.com" "abc" c1ParsedUrl (by decide) (by decide) (by decide)⟩

/-- A response for the C2 counterexample. -/
def c2Resp : HttpResponse := { status := 200, etag := none, body := "x" }

/-- C2: the claim is FALSE on the code.  `request_picture` (the binary-fetch
path used for every image download) performs its network send directly,
without ever acquiring a permit from the concurrency limiter: its event
trace is just `[send]`, containing no `acquire`. -/
theorem c2_counterexample :
    request_picture_events (Except.ok c2Resp) = [NetEvent.send] ∧
    NetEvent.acquire ∉ request_picture_events (Except.ok c2Resp) := by
  constructor
  · rfl
  · decide

/-- C2 (amended): the `request`, `post` and `post_raw` paths all dispatch
through `send_request`, whose trace acquires the permit before the send and
releases it on both the success and the transport-error exit; but
`request_picture` bypasses the limiter entirely and just sends. -/
theorem c2_amended (o : Except String HttpResponse) :
    request_events o = [NetEvent.acquire, NetEvent.send, NetEvent.release] ∧
    post_events o = [NetEvent.acquire, NetEvent.send, NetEvent.release] ∧
    post_raw_events o = [NetEvent.acquire, NetEvent.send, NetEvent.release] ∧
    request_picture_events o = [NetEvent.send] := by
  cases o <;>
    simp [request_events, post_events, post_raw_events, request_picture_events,
      send_request, request_picture]

/-- Base URL for the C3 counterexample. -/
def c3Base : Url :=
  { scheme := "http", host := "example.com", port := none, path := "/emby/Items",
    query := none }

/-- C3: the claim is FALSE on the code.  `add_params_to_url` does NOT skip a
parameter whose key is empty: appending `("", "")` after `("a", "b")` leaves
the serialised pair `=` in the query, so the resulting URL query is
`"a=b&="`, not the `"a=b"` the claim predicts. -/
theorem c3_counterexample :
    (add_params_to_url c3Base [("a", "b"), ("", "")]).query = some "a=b&=" ∧
    ("a=b&=" : String) ≠ "a=b" := by
  constructor
  · rfl
  · decide

/-- C3 (amended): `add_params_to_url` appends every given parameter to the
URL query, in the order given and with form-urlencoding, INCLUDING
parameters with an empty key (an empty key yields an `=value` pair, a bare
`=` when the value is empty too); nothing is skipped. -/
theorem c3_amended (u : Url) (ps : List (String × String)) :
    (add_params_to_url u ps).query =
      if (queryParts u ++ ps.map encodePair).isEmpty then u.query
      else some (joinAmp (queryParts u ++ ps.map encodePair)) := by
  induction ps generalizing u with
  | nil =>
    show u.query = _
    unfold queryParts
    match hq : u.query with
    | none => simp
    | some q =>
      by_cases hqe : q = ""
      · simp [hqe]
      · simp [hqe, joinAmp]
  | cons p ps ih =>
    show (add_params_to_url (u.appendPair p.fst p.snd) ps).query = _
    rw [ih, queryParts_appendPair]
    unfold queryParts
    match hq : u.query with
    | none => simp [appendPairQuery]
    | some q =>
      by_cases hqe : q = ""
      · simp [hqe, appendPairQuery]
      · simp only [hqe, if_neg hqe, List.cons_append, List.isEmpty_cons,
          List.singleton_append]
        simp [appendPairQuery, hqe, joinAmp_glue, joinAmp]

/-- C4: CONFIRMED.  Whenever `set_user_id` returns successfully, the shared
header map's `x-emby-authorization` entry is exactly the authorization value
generated from the NEW user id together with the client name, device name,
device id and version — the header is regenerated before the setter
returns, so the very next read sees the new identity. -/
theorem c4_auth_header (ctx : ClientCtx) (st : ClientState) (uid : String)
    (st' : ClientState) (h : set_user_id ctx st uid = .ok st') :
    headersGet st'.headers "x-emby-authorization" =
      some (generate_emby_authorization uid ctx.clientId ctx.deviceName
        ctx.deviceId ctx.version) := by
  unfold set_user_id header_change_user_id at h
  by_cases hv : validHeaderValue (generate_emby_authorization uid ctx.clientId
      ctx.deviceName ctx.deviceId ctx.version)
  · simp [hv] at h
    rw [← h]
    exact headersGet_insert _ _ _
  · simp [hv] at h

/-- Concrete client identity for the C4 witness. -/
def c4Ctx : ClientCtx :=
  { clientId := "Tsukimi", deviceName := "host", deviceId := "dev-1", version := "0.1" }

/-- Concrete starting state for the C4 witness. -/
def c4St : ClientState :=
  { url := none, headers := [("Accept-Encoding", "gzip")], userId := "", userAccessToken := "" }

/-- The state `set_user_id` produces in the C4 witness run. -/
def c4StNew : ClientState :=
  { url := none,
    headers := [("Accept-Encoding", "gzip"),
      ("x-emby-authorization",
        "Emby UserId=u1,Client=Tsukimi,Device=host,DeviceId=dev-1,Version=0.1")],
    userId := "u1", userAccessToken := "" }

/-- Witness for `c4_auth_header` at a concrete successful `set_user_id` run. -/
theorem c4_auth_header_witness :
    set_user_id c4Ctx c4St "u1" = .ok c4StNew ∧
    headersGet c4StNew.headers "x-emby-authorization" =
      some (generate_emby_authorization "u1" c4Ctx.clientId c4Ctx.deviceName
        c4Ctx.deviceId c4Ctx.version) :=
  ⟨by rfl, c4_auth_header c4Ctx c4St "u1" c4StNew (by rfl)⟩

/-- The concrete decoder for the C5 counterexample: accepts exactly the body
`"1"`. -/
def c5Parse : String → Option Nat :=
  fun s => if s = "1" then some 1 else none

/-- The 304 response for the C5 counterexample. -/
def c5Resp : HttpResponse := { status := 304, etag := none, body := "1" }

/-- C5: the claim is FALSE on the code.  `request` uses
`Response::error_for_status`, which only rejects statuses 400 through 599; a
response with the non-2xx status 304 and a parseable body is NOT turned into
an `Http(304)` error — its body is decoded and the decoded value returned. -/
theorem c5_counterexample :
    request_decode c5Parse "Items/1" (Except.ok c5Resp) = Except.ok 1 ∧
    isSuccess c5Resp.status = false ∧
    (Except.ok 1 : Except ApiError Nat) ≠ Except.error (ApiError.http c5Resp.status) := by
  refine ⟨rfl, rfl, ?_⟩
  intro h
  exact Except.noConfusion h

/-- C5 (amended): for a typed GET, a status of 400 through 599 yields the
Http(status)-class error without decoding the body; every OTHER status
(2xx, but also 1xx and 3xx) proceeds to decoding: an unparseable body yields
the Decode error carrying the request path and the raw body text, and a
parseable body yields the decoded value. -/
theorem c5_amended {T : Type} (parse : String → Option T) (path : String)
    (r : HttpResponse) :
    (400 ≤ r.status ∧ r.status ≤ 599 →
      request_decode parse path (Except.ok r) = Except.error (ApiError.http r.status)) ∧
    (¬ (400 ≤ r.status ∧ r.status ≤ 599) → parse r.body = none →
      request_decode parse path (Except.ok r) = Except.error (ApiError.decode path r.body)) ∧
    (¬ (400 ≤ r.status ∧ r.status ≤ 599) → ∀ v, parse r.body = some v →
      request_decode parse path (Except.ok r) = Except.ok v) := by
  unfold request_decode send_request error_for_status
  refine ⟨fun h => ?_, fun h hp => ?_, fun h v hp => ?_⟩
  · simp [h]
  · simp [h, hp]
  · simp [h, hp]

/-- Witness for `c5_amended`: the three branches at concrete responses — a
404 becomes the Http error, a 200 with unparseable body becomes the Decode
error carrying path and body, and a 200 with parseable body decodes. -/
theorem c5_amended_witness :
    request_decode c5Parse "p" (Except.ok { status := 404, etag := none, body := "1" }) =
      Except.error (ApiError.http 404) ∧
    request_decode c5Parse "p" (Except.ok { status := 200, etag := none, body := "zz" }) =
      Except.error (ApiError.decode "p" "zz") ∧
    request_decode c5Parse "p" (Except.ok { status := 200, etag := none, body := "1" }) =
      Except.ok 1 :=
  ⟨(c5_amended c5Parse "p" _).1 (by simp),
   (c5_amended c5Parse "p" _).2.1 (by simp) (by rfl),
   (c5_amended c5Parse "p" _).2.2 (by simp) 1 (by rfl)⟩

/-- From a success status (2xx) the redirection branch (3xx) is closed. -/
theorem isSuccess_not_redirection {s : Nat} (h : isSuccess s = true) :
    isRedirection s = false := by
  simp [isSuccess] at h
  simp [isRedirection]
  omega

/-- C6: CONFIRMED.  For a successful image response (and a filesystem whose
write succeeds): a body of 1000 bytes or fewer is never persisted — the
filesystem is returned unchanged and the empty path is the result — while a
body of more than 1000 bytes is written exactly (byte for byte) to the cache
path computed from `(id, image_type, tag)`, which is returned. -/
theorem c6_threshold (cacheDir id imageType : String) (tag : Option Nat)
    (r : BinResponse) (fs : FileSystem) (xattrOk : Bool)
    (hs : isSuccess r.status = true) :
    (r.bytes.length ≤ 1000 →
      get_image cacheDir id imageType tag (Except.ok r) fs true xattrOk =
        (.ok "", fs)) ∧
    (1000 < r.bytes.length →
      (get_image cacheDir id imageType tag (Except.ok r) fs true xattrOk).fst =
        .ok (cachePathFor cacheDir id imageType tag) ∧
      (get_image cacheDir id imageType tag (Except.ok r) fs true xattrOk).snd.files =
        assocInsert fs.files (cachePathFor cacheDir id imageType tag) r.bytes) := by
  have hr := isSuccess_not_redirection hs
  constructor
  · intro hle
    unfold get_image
    simp [hr, hs, Nat.not_lt.mpr hle]
  · intro hgt
    unfold get_image save_image
    simp only [hr, hs, Bool.false_eq_true, if_false, if_true, not_true,
      Bool.not_true, gt_iff_lt, hgt, if_pos hgt]
    match r.etag with
    | none => cases xattrOk <;> simp [hgt]
    | some e => cases xattrOk <;> simp [hgt]

/-- Witness for `c6_threshold`: a 1000-byte-or-less body (3 bytes) leaves
the cache untouched and returns the empty path; a 1001-byte body is written
to the computed path, which is returned. -/
theorem c6_threshold_witness :
    get_image "/cache" "i" "Primary" none
        (Except.ok { status := 200, etag := none, bytes := [1, 2, 3] })
        { files := [], xattrs := [] } true true =
      (.ok "", { files := [], xattrs := [] }) ∧
    (get_image "/cache" "i" "Primary" none
        (Except.ok { status := 200, etag := some "E", bytes := List.replicate 1001 5 })
        { files := [], xattrs := [] } true true).fst =
      .ok (cachePathFor "/cache" "i" "Primary" none) ∧
    (get_image "/cache" "i" "Primary" none
        (Except.ok { status := 200, etag := some "E", bytes := List.replicate 1001 5 })
        { files := [], xattrs := [] } true true).snd.files =
      assocInsert ({ files := [], xattrs := [] } : FileSystem).files
        (cachePathFor "/cache" "i" "Primary" none) (List.replicate 1001 5) :=
  ⟨(c6_threshold "/cache" "i" "Primary" none _ _ true (by decide)).1 (by decide),
   ((c6_threshold "/cache" "i" "Primary" none _ _ true (by decide)).2
     (by simp only [List.length_replicate]; decide)).1,
   ((c6_threshold "/cache" "i" "Primary" none _ _ true (by decide)).2
     (by simp only [List.length_replicate]; decide)).2⟩

/-- C7: CONFIRMED.  When the conditional fetch answers with a
redirection-class ("not modified") status, `get_image` returns the
pre-existing local cache path and performs no write: the filesystem — in
particular the cached file's byte content — is exactly what it was before
the call. -/
theorem c7_not_modified (cacheDir id imageType : String) (tag : Option Nat)
    (r : BinResponse) (fs : FileSystem) (writeOk xattrOk : Bool)
    (oldBytes : List Nat)
    (hr : isRedirection r.status = true)
    (hf : assocGet fs.files (cachePathFor cacheDir id imageType tag) = some oldBytes) :
    get_image cacheDir id imageType tag (Except.ok r) fs writeOk xattrOk =
      (.ok (cachePathFor cacheDir id imageType tag), fs) ∧
    assocGet fs.files (cachePathFor cacheDir id imageType tag) = some oldBytes := by
  constructor
  · unfold get_image
    simp [hr]
  · exact hf

/-- A one-file cache for the C7 witness. -/
def c7Fs : FileSystem :=
  { files := [("/cache/i-Primary-3", [9, 9, 9])], xattrs := [("/cache/i-Primary-3", "W1")] }

/-- Witness for `c7_not_modified`: a 304 answer on a cached file returns the
existing path and leaves the file bytes untouched. -/
theorem c7_not_modified_witness :
    get_image "/cache" "i" "Primary" (some 3)
        (Except.ok { status := 304, etag := none, bytes := [] }) c7Fs true true =
      (.ok (cachePathFor "/cache" "i" "Primary" (some 3)), c7Fs) ∧
    assocGet c7Fs.files (cachePathFor "/cache" "i" "Primary" (some 3)) = some [9, 9, 9] :=
  c7_not_modified "/cache" "i" "Primary" (some 3) _ c7Fs true true [9, 9, 9]
    (by decide) (by decide)

/-- C9: CONFIRMED.  `save_image` calls `std::fs::write(..).unwrap()`: a
failed write of the image bytes is a panic, not an error return (and hence
`get_image` on a larger-than-1000-byte body panics too when the write
fails); only the sidecar entity-tag write failure is absorbed — with the tag
write failing, `save_image` still returns the path, the bytes are written,
and the sidecar map is left alone. -/
theorem c9_write_unwrap (cacheDir id imageType : String) (tag : Option Nat)
    (bytes : List Nat) (etag : Option String) (e : String) (fs : FileSystem)
    (xattrOk : Bool) (r : BinResponse)
    (hs : isSuccess r.status = true) (hl : 1000 < r.bytes.length) :
    save_image cacheDir id imageType tag bytes etag fs false xattrOk =
      (.panicked, fs) ∧
    save_image cacheDir id imageType tag bytes (some e) fs true false =
      (.ok (cachePathFor cacheDir id imageType tag),
       { files := assocInsert fs.files (cachePathFor cacheDir id imageType tag) bytes,
         xattrs := fs.xattrs }) ∧
    get_image cacheDir id imageType tag (Except.ok r) fs false xattrOk =
      (.panicked, fs) := by
  have hr := isSuccess_not_redirection hs
  refine ⟨by simp [save_image], by simp [save_image], ?_⟩
  unfold get_image save_image
  simp [hr, hs, hl]

/-- Witness for `c9_write_unwrap`: concrete failing-write and
failing-sidecar runs. -/
theorem c9_write_unwrap_witness :
    save_image "/cache" "i" "Primary" none [1, 2] (some "E") { files := [], xattrs := [] }
        false true = (.panicked, { files := [], xattrs := [] }) ∧
    save_image "/cache" "i" "Primary" none [1, 2] (some "E") { files := [], xattrs := [] }
        true false =
      (.ok (cachePathFor "/cache" "i" "Primary" none),
       { files := assocInsert ({ files := [], xattrs := [] } : FileSystem).files
           (cachePathFor "/cache" "i" "Primary" none) [1, 2],
         xattrs := ({ files := [], xattrs := [] } : FileSystem).xattrs }) ∧
    get_image "/cache" "i" "Primary" none
        (Except.ok { status := 200, etag := some "E", bytes := List.replicate 1001 5 })
        { files := [], xattrs := [] } false true = (.panicked, { files := [], xattrs := [] }) :=
  c9_write_unwrap "/cache" "i" "Primary" none [1, 2] (some "E") "E"
    { files := [], xattrs := [] } true
    { status := 200, etag := some "E", bytes := List.replicate 1001 5 }
    (by decide) (by simp only [List.length_replicate]; decide)

/-- C10: CONFIRMED.  With no base URL configured (`url` still `None`, i.e.
before any successful `set_server`), each of the four pure URL builders —
`get_direct_stream_url`, `get_streaming_url`, `get_song_streaming_uri` and
`get_image_path` — panics on the `unwrap` of the optional base URL: a
configured base URL is an unstated precondition of these operations. -/
theorem c10_builders_unwrap_none (ctx : ClientCtx)
    (headers : List (String × String)) (userId accessToken : String)
    (continer msid etag path songId imgId imgType : String) (idx : Option Nat) :
    get_direct_stream_url ctx
        { url := none, headers := headers, userId := userId,
          userAccessToken := accessToken } continer msid etag = .panicked ∧
    get_streaming_url
        { url := none, headers := headers, userId := userId,
          userAccessToken := accessToken } path = .panicked ∧
    get_song_streaming_uri ctx
        { url := none, headers := headers, userId := userId,
          userAccessToken := accessToken } songId = .panicked ∧
    get_image_path
        { url := none, headers := headers, userId := userId,
          userAccessToken := accessToken } imgId imgType idx = .panicked :=
  ⟨rfl, rfl, rfl, rfl⟩

/-- Joining the API root `"emby/"` onto a host-root URL (path `/`) gives the
path `/emby/` and clears the query. -/
theorem join_emby_of_root (u : Url) (hpath : u.path = "/") :
    u.join "emby/" = { u with path := "/emby/", query := none } := by
  unfold Url.join
  rw [hpath]
  have hsplit : splitAtChar '?' "emby/".toList = ("emby/".toList, none) := by decide
  rw [hsplit]
  simp only [Option.map_none']
  congr 1

/-- The base URL `set_server` resolves for a given scheme, host and port:
`scheme://host:port/emby/`, with the port elided when it is the scheme
default (the `url` crate's normal form of the same URL). -/
def resolvedBase (scheme host : String) (port : Nat) : Url :=
  { scheme := scheme, host := host,
    port := if defaultPort scheme = some port then none else some port,
    path := "/emby/", query := none }

/-- C8: CONFIRMED.  For every URL that parses to a bare `scheme://host`
(root path, no query) and every numeric port, `header_change_url` succeeds
and stores exactly the URL `scheme://host:port/emby/`: the stored record is
`resolvedBase`, its effective port is the requested port, and its
serialisation is `scheme://host[:port]/emby/` with the port printed exactly
when it is not the scheme default. -/
theorem c8_set_server (st : ClientState) (s portStr : String) (port : Nat)
    (u : Url) (hu : parseUrl s = some u) (hpath : u.path = "/")
    (hhost : u.host ≠ "") (hport : parseU16 portStr = some port) :
    header_change_url st s portStr =
      .ok { st with url := some (resolvedBase u.scheme u.host port) } ∧
    (resolvedBase u.scheme u.host port).portOrDefault = some port ∧
    urlToString (resolvedBase u.scheme u.host port) =
      u.scheme ++ "://" ++ u.host ++
        (if defaultPort u.scheme = some port then "" else ":" ++ toString port) ++
        "/emby/" := by
  refine ⟨?_, ?_, ?_⟩
  · unfold header_change_url
    rw [hu, hport]
    simp only [Option.getD_some]
    unfold Url.setPort
    rw [if_neg hhost]
    have hj := join_emby_of_root
      { u with port := if defaultPort u.scheme = some port then none else some port }
      (by simpa using hpath)
    simp only [hj]
    rfl
  · unfold resolvedBase Url.portOrDefault
    by_cases h : defaultPort u.scheme = some port
    · simp [h]
    · simp [h]
  · unfold resolvedBase urlToString
    by_cases h : defaultPort u.scheme = some port
    · simp [h]
    · simp [h]

/-- Starting state for the C8 witness. -/
def c8St : ClientState :=
  { url := none, headers := [], userId := "", userAccessToken := "" }

/-- Parse result of the C8 witness URL. -/
def c8ParsedUrl : Url :=
  { scheme := "http", host := "example.com", port := none, path := "/", query := none }

/-- Witness for `c8_set_server` at `("http://example.com", "8096")`. -/
theorem c8_set_server_witness :
    parseUrl "http://example.com" = some c8ParsedUrl ∧
    parseU16 "8096" = some 8096 ∧
    header_change_url c8St "http://example.com" "8096" =
      .ok { c8St with url := some (resolvedBase c8ParsedUrl.scheme c8ParsedUrl.host 8096) } ∧
    (resolvedBase c8ParsedUrl.scheme c8ParsedUrl.host 8096).portOrDefault = some 8096 ∧
    urlToString (resolvedBase c8ParsedUrl.scheme c8ParsedUrl.host 8096) =
      "http://example.com:8096/emby/" := by
  refine ⟨by decide, by decide, ?_, ?_, ?_⟩
  · exact (c8_set_server c8St "http://example.com" "8096" 8096 c8ParsedUrl
      (by decide) (by decide) (by decide) (by decide)).1
  · exact (c8_set_server c8St "http://example.com" "8096" 8096 c8ParsedUrl
      (by decide) (by decide) (by decide) (by decide)).2.1
  · have h := (c8_set_server c8St "http://example.com" "8096" 8096 c8ParsedUrl
      (by decide) (by decide) (by decide) (by decide)).2.2
    rw [h]
    decide

end Tsukimi
